import Mathlib

/-!
Verification of `pyokta_aws/settings.py`: the `Settings` value object, the
argparse option registration table, and the `from_argparse` resolution
pipeline, shallowly embedded.

Python dynamic values are modelled by `PyVal`; the attribute dictionary of a
Python object and the argparse namespace dictionary are modelled by insertion
ordered association lists (`PyDict`); in-place mutation of the namespace is
modelled by explicit state passing (the final dictionary is returned in the
`ns` field of `FAResult`).  Python exceptions are modelled with `Except`.
-/

set_option autoImplicit false

/-- A Python runtime value as it appears in the settings mapping:
`None`, a bool, an int, or a str. -/
inductive PyVal where
  | vnone : PyVal
  | vbool : Bool → PyVal
  | vint : Int → PyVal
  | vstr : String → PyVal
  deriving DecidableEq, Repr

namespace PyVal

/-- Python truthiness, `bool(v)`, as used by `not` and `if`. -/
def truthy : PyVal → Bool
  | vnone => false
  | vbool b => b
  | vint n => decide (n ≠ 0)
  | vstr s => decide (s ≠ "")

/-- Python `str(v)` for the values that can appear in the settings mapping. -/
def pyStr : PyVal → String
  | vnone => "None"
  | vbool true => "True"
  | vbool false => "False"
  | vint n => toString n
  | vstr s => s

end PyVal

/-- A Python exception as raised by the code under study: `TypeError` from the
keyword-only construction guard, `KeyError` from a dictionary access. -/
inductive PyErr where
  | typeError : String → PyErr
  | keyError : String → PyErr
  deriving DecidableEq, Repr

/-- A Python dictionary with string keys, modelled as an insertion ordered
association list (CPython dictionaries preserve insertion order). -/
abbrev PyDict := List (String × PyVal)

/-- `d[key] = v`: replace the value at `key` if present, else append the new
entry at the end, as CPython dictionary assignment does. -/
def dictSet (d : PyDict) (key : String) (v : PyVal) : PyDict :=
  if d.any (fun p => p.1 == key) then
    d.map (fun p => if p.1 == key then (key, v) else p)
  else d ++ [(key, v)]

/-- `d.pop(key)`: the value at `key` together with the dictionary with that
key removed, or `none` (Python raises `KeyError`) when the key is absent. -/
def dictPop (d : PyDict) (key : String) : Option (PyVal × PyDict) :=
  match d.lookup key with
  | some v => some (v, d.filter (fun p => !(p.1 == key)))
  | Option.none => Option.none

/-- Keyword lookup with a default, as binding a Python keyword parameter
`key=dflt` against the keyword argument dictionary. -/
def kwarg (kwargs : PyDict) (key : String) (dflt : PyVal) : PyVal :=
  (kwargs.lookup key).getD dflt

/-- Modelled from the spec: `utils.no_positional(allow_self=True)` decorates
`Settings.__init__`; the module `pyokta_aws/utils.py` is not under `src/`.
Per the spec it rejects any positional argument beyond the implicit receiver
with a usage error (`TypeError`) before the wrapped body runs, and lets a
purely keyword call through unchanged. -/
def noPositional (posArgs : List PyVal) (body : Except PyErr PyDict) :
    Except PyErr PyDict :=
  if posArgs = [] then body
  else Except.error (PyErr.typeError "Settings takes no positional arguments")

/-- `Settings.__init__` (src/pyokta_aws/settings.py).  Given the positional
arguments beyond `self` and the keyword argument dictionary, it produces the
instance attribute dictionary built by the eight `self.x = x` assignments, in
source order.  Extra keywords land in `**ignored_kwargs` and are dropped; the
`interactive=True` keyword parameter is accepted but never assigned to the
instance, so the result has no `interactive` entry. -/
def Settings.init (posArgs : List PyVal) (kwargs : PyDict) :
    Except PyErr PyDict :=
  noPositional posArgs (Except.ok
    [("profile", kwarg kwargs "profile" PyVal.vnone),
     ("username", kwarg kwargs "username" PyVal.vnone),
     ("password", kwarg kwargs "password" PyVal.vnone),
     ("okta_org", kwarg kwargs "okta_org" PyVal.vnone),
     ("okta_aws_app_url", kwarg kwargs "okta_aws_app_url" PyVal.vnone),
     ("sts_duration", kwarg kwargs "sts_duration" PyVal.vnone),
     ("config_file", kwarg kwargs "config_file"
        (PyVal.vstr "~/.pyokta_aws/config")),
     ("verbose", kwarg kwargs "verbose" (PyVal.vbool false))])

/-- One registered command line option: its argparse destination name, the
`env=` keyword naming the bound environment variable (none for the plain
`store_true` flags), and the static default (`None` when no `default=` was
given, as in argparse). -/
structure OptionSpec where
  dest : String
  env : Option String
  dflt : PyVal
  deriving DecidableEq, Repr

/-- `Settings.register_argparse_arguments` (src/pyokta_aws/settings.py) as a
declarative table, one row per `parser.add_argument` call in source order.
The destination names are derived by argparse from the long flag names
(`--okta-org` gives `okta_org`, and so on).  `--non-interactive` and
`--verbose` are `store_true` flags with `default=False` and no environment
binding. -/
def Settings.register_argparse_arguments : List OptionSpec :=
  [⟨"profile", some "OKTA_AWS_PROFILE", PyVal.vnone⟩,
   ⟨"okta_org", some "OKTA_ORG", PyVal.vnone⟩,
   ⟨"okta_aws_app_url", some "OKTA_AWS_APP_URL", PyVal.vnone⟩,
   ⟨"aws_role_to_assume", some "OKTA_AWS_ROLE_TO_ASSUME", PyVal.vnone⟩,
   ⟨"username", some "OKTA_USERNAME", PyVal.vnone⟩,
   ⟨"password", some "OKTA_PASSWORD", PyVal.vnone⟩,
   ⟨"sts_duration", some "OKTA_STS_DURATION", PyVal.vint 3600⟩,
   ⟨"config_file", some "PYOKTA_AWS_CONFIG",
      PyVal.vstr "~/.pyokta_aws/config"⟩,
   ⟨"non_interactive", Option.none, PyVal.vbool false⟩,
   ⟨"verbose", Option.none, PyVal.vbool false⟩]

/-- Modelled from the spec: `utils.EnvironmentDefault` (module
`pyokta_aws/utils.py`, not under `src/`) resolves the effective value of one
option with the three tier precedence the spec states: an explicitly supplied
CLI value wins, else the bound environment variable when set (environment
values are strings), else the static default.  `environ` is the injected
process environment; `cli` maps a destination name to the value explicitly
supplied on the command line, when one was. -/
def resolveOption (environ : List (String × String)) (cli : PyDict)
    (o : OptionSpec) : PyVal :=
  match cli.lookup o.dest with
  | some v => v
  | Option.none =>
    match o.env.bind (fun e => environ.lookup e) with
    | some s => PyVal.vstr s
    | Option.none => o.dflt

/-- Parsing a command line against the registered arguments: the resulting
argparse namespace dictionary holds, for every registered option, its
resolved effective value. -/
def parseArgs (environ : List (String × String)) (cli : PyDict) : PyDict :=
  Settings.register_argparse_arguments.map
    (fun o => (o.dest, resolveOption environ cli o))

/-- The key column of one verbose dump line, the Python format specification
of width 19, left justified, padded with dots (code point 46). -/
def padDots (s : String) : String :=
  s ++ String.mk (List.replicate (19 - s.length) (Char.ofNat 46))

/-- One line of the verbose dump.  The source guards the value with
`str(y) if x is not 'password' else '<redacted>'`; the `is not` identity
comparison coincides with string inequality here because CPython interns
both the literal in the code and the attribute names that `setattr` stored
in the namespace dictionary, so it is modelled as string equality. -/
def dumpLine (x : String) (y : PyVal) : String :=
  padDots x ++ ": " ++ (if x == "password" then "<redacted>" else y.pyStr)

/-- The per item lines printed by the verbose loop, in dictionary order. -/
def dumpLines (settings : PyDict) : List String :=
  settings.map (fun p => dumpLine p.1 p.2)

/-- The observable outcome of `Settings.from_argparse`: the attribute
dictionary of the constructed `Settings` instance, the printed lines, and
the final state of the argparse namespace dictionary (`vars(args)` aliases
the namespace, so the pop and the assignment mutate it in place). -/
structure FAResult where
  inst : PyDict
  printed : List String
  ns : PyDict
  deriving DecidableEq, Repr

/-- `Settings.from_argparse` (src/pyokta_aws/settings.py):
`settings = vars(args)`; `settings['interactive'] = not
settings.pop('non_interactive')`; if `settings['verbose']` is truthy print a
header and one dump line per item; finally `cls(**settings)`. -/
def Settings.from_argparse (args : PyDict) : Except PyErr FAResult :=
  match dictPop args "non_interactive" with
  | Option.none => Except.error (PyErr.keyError "non_interactive")
  | some (ni, rest) =>
    let settings := dictSet rest "interactive" (PyVal.vbool (!ni.truthy))
    match settings.lookup "verbose" with
    | Option.none => Except.error (PyErr.keyError "verbose")
    | some v =>
      let printed := if v.truthy
        then "\nUsing the following settings..." :: dumpLines settings
        else []
      match Settings.init [] settings with
      | Except.error e => Except.error e
      | Except.ok inst => Except.ok ⟨inst, printed, settings⟩

/-- The command line mapping produced by `--profile acme --verbose`. -/
def exampleCli : PyDict :=
  [("profile", PyVal.vstr "acme"), ("verbose", PyVal.vbool true)]

/-! Association list dictionary lemmas. -/

theorem lookup_cons {β : Type} (a k : String) (v : β) (t : List (String × β)) :
    ((k, v) :: t).lookup a = if a = k then some v else t.lookup a := by
  simp [List.lookup]
  split <;> simp_all

theorem lookup_append (a : String) (d1 d2 : PyDict) :
    (d1 ++ d2).lookup a = (d1.lookup a).or (d2.lookup a) := by
  induction d1 with
  | nil => simp
  | cons p t ih =>
    cases p with
    | mk k v =>
      rw [List.cons_append, lookup_cons, lookup_cons]
      split <;> simp_all

theorem lookup_map_update (d : PyDict) (k : String) (v : PyVal) :
    (d.map (fun p => if p.1 == k then (k, v) else p)).lookup k =
      (d.lookup k).map (fun _ => v) := by
  induction d with
  | nil => simp
  | cons p t ih =>
    cases p with
    | mk pk pv =>
      by_cases h : pk = k
      · simp [h, lookup_cons]
      · simp only [List.map_cons, beq_iff_eq, if_neg h]
        rw [lookup_cons, lookup_cons, if_neg (Ne.symm h), if_neg (Ne.symm h)]
        simpa using ih

theorem lookup_map_update_ne (d : PyDict) (k : String) (v : PyVal)
    (a : String) (h : a ≠ k) :
    (d.map (fun p => if p.1 == k then (k, v) else p)).lookup a = d.lookup a := by
  induction d with
  | nil => simp
  | cons p t ih =>
    cases p with
    | mk pk pv =>
      by_cases hp : pk = k
      · simp only [List.map_cons, beq_iff_eq, if_pos hp]
        rw [lookup_cons, lookup_cons, if_neg h, if_neg (hp ▸ h)]
        simpa using ih
      · simp only [List.map_cons, beq_iff_eq, if_neg hp]
        rw [lookup_cons, lookup_cons]
        split
        · rfl
        · simpa using ih

theorem lookup_of_any_eq_false (d : PyDict) (k : String)
    (h : d.any (fun p => p.1 == k) = false) : d.lookup k = Option.none := by
  induction d with
  | nil => simp
  | cons p t ih =>
    cases p with
    | mk pk pv =>
      simp only [List.any_cons, Bool.or_eq_false_iff, beq_eq_false_iff_ne] at h
      rw [lookup_cons, if_neg (Ne.symm h.1)]
      exact ih (by simpa using h.2)

theorem lookup_ne_none_of_mem (d : PyDict) (k : String) (v : PyVal)
    (h : (k, v) ∈ d) : d.lookup k ≠ Option.none := by
  induction d with
  | nil => simp at h
  | cons p t ih =>
    cases p with
    | mk pk pv =>
      rw [lookup_cons]
      rcases List.mem_cons.mp h with h1 | h1
      · have h2 : k = pk := by injection h1 with h2 _
        rw [if_pos h2]
        simp
      · split
        · simp
        · exact ih h1

theorem lookup_dictSet_self (d : PyDict) (k : String) (v : PyVal) :
    (dictSet d k v).lookup k = some v := by
  unfold dictSet
  split
  case isTrue h =>
    rw [lookup_map_update]
    cases hd : d.lookup k with
    | none =>
      exfalso
      rcases List.any_eq_true.mp h with ⟨p, hp, he⟩
      have hk : p.1 = k := by simpa using he
      have hm : (p.1, p.2) ∈ d := by simpa using hp
      rw [hk] at hm
      exact lookup_ne_none_of_mem d k p.2 hm hd
    | some w => simp
  case isFalse h =>
    rw [lookup_append, lookup_of_any_eq_false d k (Bool.eq_false_iff.mpr h)]
    rw [lookup_cons]
    simp

theorem lookup_dictSet_ne (d : PyDict) (k : String) (v : PyVal)
    (a : String) (h : a ≠ k) :
    (dictSet d k v).lookup a = d.lookup a := by
  unfold dictSet
  split
  · exact lookup_map_update_ne d k v a h
  · rw [lookup_append, lookup_cons]
    simp [h]

theorem lookup_filter_self (d : PyDict) (k : String) :
    (d.filter (fun p => !(p.1 == k))).lookup k = Option.none := by
  induction d with
  | nil => simp
  | cons p t ih =>
    cases p with
    | mk pk pv =>
      by_cases h : pk = k
      · simpa [List.filter_cons, h] using ih
      · simp only [List.filter_cons, beq_iff_eq]
        rw [if_pos (by simpa using h)]
        rw [lookup_cons, if_neg (Ne.symm h)]
        exact ih

theorem lookup_filter_ne (d : PyDict) (k a : String) (h : a ≠ k) :
    (d.filter (fun p => !(p.1 == k))).lookup a = d.lookup a := by
  induction d with
  | nil => simp
  | cons p t ih =>
    cases p with
    | mk pk pv =>
      by_cases hp : pk = k
      · rw [List.filter_cons_of_neg (by simpa using hp)]
        rw [lookup_cons, if_neg (hp ▸ h), ih]
      · rw [List.filter_cons_of_pos (by simpa using hp)]
        rw [lookup_cons, lookup_cons, ih]

theorem mem_dumpLines (d : PyDict) (k : String) (y : PyVal) (h : (k, y) ∈ d) :
    dumpLine k y ∈ dumpLines d :=
  List.mem_map_of_mem _ h

theorem mem_dictSet_ne (d : PyDict) (k : String) (y : PyVal)
    (k2 : String) (v : PyVal) (h : (k, y) ∈ d) (hk : k ≠ k2) :
    (k, y) ∈ dictSet d k2 v := by
  unfold dictSet
  split
  · have := List.mem_map_of_mem (fun p => if p.1 == k2 then (k2, v) else p) h
    simpa [hk] using this
  · exact List.mem_append_left _ h

/-! Structural lemmas about the parse and resolve pipeline. -/

theorem parseArgs_lookup_non_interactive (environ : List (String × String))
    (cli : PyDict) :
    (parseArgs environ cli).lookup "non_interactive" =
      some (resolveOption environ cli
        ⟨"non_interactive", Option.none, PyVal.vbool false⟩) := by
  simp [parseArgs, Settings.register_argparse_arguments, lookup_cons]

theorem parseArgs_lookup_verbose (environ : List (String × String))
    (cli : PyDict) :
    (parseArgs environ cli).lookup "verbose" =
      some (resolveOption environ cli
        ⟨"verbose", Option.none, PyVal.vbool false⟩) := by
  simp [parseArgs, Settings.register_argparse_arguments, lookup_cons]

theorem from_argparse_eq_ok (args : PyDict) (ni : PyVal) (v : PyVal)
    (hni : args.lookup "non_interactive" = some ni)
    (hv : (dictSet (args.filter (fun p => !(p.1 == "non_interactive")))
        "interactive" (PyVal.vbool (!ni.truthy))).lookup "verbose" = some v) :
    ∃ inst,
      Settings.init [] (dictSet (args.filter (fun p => !(p.1 == "non_interactive")))
        "interactive" (PyVal.vbool (!ni.truthy))) = Except.ok inst ∧
      Settings.from_argparse args = Except.ok
        ⟨inst,
         (if v.truthy
          then "\nUsing the following settings..." ::
            dumpLines (dictSet (args.filter (fun p => !(p.1 == "non_interactive")))
              "interactive" (PyVal.vbool (!ni.truthy)))
          else []),
         dictSet (args.filter (fun p => !(p.1 == "non_interactive")))
           "interactive" (PyVal.vbool (!ni.truthy))⟩ := by
  refine ⟨_, rfl, ?_⟩
  simp only [Settings.from_argparse, dictPop, hni]
  rw [hv]
  rfl

theorem parseArgs_env_password (environ : List (String × String)) (cli : PyDict)
    (p : String) (hcli : cli.lookup "password" = Option.none) :
    parseArgs (("OKTA_PASSWORD", p) :: environ) cli =
      parseArgs environ (("password", PyVal.vstr p) :: cli) := by
  simp [parseArgs, Settings.register_argparse_arguments, resolveOption,
    lookup_cons, hcli]

/-! The claims. -/

/-- C1: for every registered option, the effective value follows the three
tier precedence: an explicitly supplied CLI value wins over a set environment
variable, which wins over the static default, which wins over unset; in
particular it is never environment over CLI. -/
theorem resolveOption_precedence
    (environ : List (String × String)) (cli : PyDict) (o : OptionSpec)
    (ho : o ∈ Settings.register_argparse_arguments) :
    (∀ v, cli.lookup o.dest = some v → resolveOption environ cli o = v) ∧
    (cli.lookup o.dest = Option.none → ∀ e s, o.env = some e →
      environ.lookup e = some s →
      resolveOption environ cli o = PyVal.vstr s) ∧
    (cli.lookup o.dest = Option.none →
      (∀ e, o.env = some e → environ.lookup e = Option.none) →
      resolveOption environ cli o = o.dflt) := by
  refine ⟨?_, ?_, ?_⟩
  · intro v hv
    simp [resolveOption, hv]
  · intro h e s he hs
    simp [resolveOption, h, he, hs]
  · intro h he
    cases henv : o.env with
    | none => simp [resolveOption, h, henv]
    | some e => simp [resolveOption, h, henv, he e henv]

theorem resolveOption_precedence_witness :
    ((⟨"okta_org", some "OKTA_ORG", PyVal.vnone⟩ : OptionSpec) ∈
      Settings.register_argparse_arguments) ∧
    ([("okta_org", PyVal.vstr "fromcli")] : PyDict).lookup "okta_org" =
      some (PyVal.vstr "fromcli") ∧
    resolveOption [("OKTA_ORG", "fromenv")] [("okta_org", PyVal.vstr "fromcli")]
      ⟨"okta_org", some "OKTA_ORG", PyVal.vnone⟩ = PyVal.vstr "fromcli" :=
  ⟨by decide, by decide,
   (resolveOption_precedence [("OKTA_ORG", "fromenv")]
      [("okta_org", PyVal.vstr "fromcli")]
      ⟨"okta_org", some "OKTA_ORG", PyVal.vnone⟩ (by decide)).1
      (PyVal.vstr "fromcli") (by decide)⟩

/-- C2: with the resolved `verbose` setting true, the dump line for the
`password` key is the fixed marker line and never shows the actual password,
and the printed output of `from_argparse` is identical across two runs that
differ only in the (non empty) password value, whether the password is
supplied on the command line or through the `OKTA_PASSWORD` environment
variable. -/
theorem from_argparse_redacts_password
    (environ : List (String × String)) (cli : PyDict) (p1 p2 : String)
    (hp1 : p1 ≠ "") (hp2 : p2 ≠ "")
    (hv : cli.lookup "verbose" = some (PyVal.vbool true)) :
    (∀ y : PyVal, dumpLine "password" y = "password...........: <redacted>") ∧
    (∃ r1 r2,
      Settings.from_argparse (parseArgs environ (("password", PyVal.vstr p1) :: cli)) =
        Except.ok r1 ∧
      Settings.from_argparse (parseArgs environ (("password", PyVal.vstr p2) :: cli)) =
        Except.ok r2 ∧
      r1.printed = r2.printed ∧
      "password...........: <redacted>" ∈ r1.printed) ∧
    (cli.lookup "password" = Option.none →
      ∃ r1 r2,
        Settings.from_argparse (parseArgs (("OKTA_PASSWORD", p1) :: environ) cli) =
          Except.ok r1 ∧
        Settings.from_argparse (parseArgs (("OKTA_PASSWORD", p2) :: environ) cli) =
          Except.ok r2 ∧
        r1.printed = r2.printed ∧
        "password...........: <redacted>" ∈ r1.printed) := by
  refine ⟨fun y => rfl, ?_, ?_⟩
  · refine ⟨_, _, rfl, rfl, rfl, ?_⟩
    dsimp only
    have hv2 : resolveOption environ (("password", PyVal.vstr p1) :: cli)
        ⟨"verbose", Option.none, PyVal.vbool false⟩ = PyVal.vbool true := by
      simp [resolveOption, lookup_cons, hv]
    rw [hv2]
    have hpw : resolveOption environ (("password", PyVal.vstr p1) :: cli)
        ⟨"password", some "OKTA_PASSWORD", PyVal.vnone⟩ = PyVal.vstr p1 := by
      simp [resolveOption, lookup_cons]
    have hmem : ("password", PyVal.vstr p1) ∈
        parseArgs environ (("password", PyVal.vstr p1) :: cli) := by
      simp [parseArgs, Settings.register_argparse_arguments, hpw]
    have hmem2 : ("password", PyVal.vstr p1) ∈
        (parseArgs environ (("password", PyVal.vstr p1) :: cli)).filter
          (fun p => !(p.1 == "non_interactive")) :=
      List.mem_filter.mpr ⟨hmem, rfl⟩
    have hmem3 := mem_dictSet_ne _ _ _ "interactive"
      (PyVal.vbool (!(resolveOption environ (("password", PyVal.vstr p1) :: cli)
          ⟨"non_interactive", Option.none, PyVal.vbool false⟩).truthy)) hmem2 (by decide)
    have hline := mem_dumpLines _ _ _ hmem3
    rw [show dumpLine "password" (PyVal.vstr p1) =
        "password...........: <redacted>" from rfl] at hline
    have hg : ((PyVal.vbool true).truthy = true) := rfl
    rw [if_pos hg]
    exact List.mem_cons_of_mem _ hline
  · intro hcli
    rw [parseArgs_env_password environ cli p1 hcli,
      parseArgs_env_password environ cli p2 hcli]
    refine ⟨_, _, rfl, rfl, rfl, ?_⟩
    dsimp only
    have hv2 : resolveOption environ (("password", PyVal.vstr p1) :: cli)
        ⟨"verbose", Option.none, PyVal.vbool false⟩ = PyVal.vbool true := by
      simp [resolveOption, lookup_cons, hv]
    rw [hv2]
    have hpw : resolveOption environ (("password", PyVal.vstr p1) :: cli)
        ⟨"password", some "OKTA_PASSWORD", PyVal.vnone⟩ = PyVal.vstr p1 := by
      simp [resolveOption, lookup_cons]
    have hmem : ("password", PyVal.vstr p1) ∈
        parseArgs environ (("password", PyVal.vstr p1) :: cli) := by
      simp [parseArgs, Settings.register_argparse_arguments, hpw]
    have hmem2 : ("password", PyVal.vstr p1) ∈
        (parseArgs environ (("password", PyVal.vstr p1) :: cli)).filter
          (fun p => !(p.1 == "non_interactive")) :=
      List.mem_filter.mpr ⟨hmem, rfl⟩
    have hmem3 := mem_dictSet_ne _ _ _ "interactive"
      (PyVal.vbool (!(resolveOption environ (("password", PyVal.vstr p1) :: cli)
          ⟨"non_interactive", Option.none, PyVal.vbool false⟩).truthy)) hmem2 (by decide)
    have hline := mem_dumpLines _ _ _ hmem3
    rw [show dumpLine "password" (PyVal.vstr p1) =
        "password...........: <redacted>" from rfl] at hline
    have hg : ((PyVal.vbool true).truthy = true) := rfl
    rw [if_pos hg]
    exact List.mem_cons_of_mem _ hline

theorem from_argparse_redacts_password_witness :
    ("hunter2" : String) ≠ "" ∧ ("swordfish" : String) ≠ "" ∧
    ([("verbose", PyVal.vbool true)] : PyDict).lookup "verbose" =
      some (PyVal.vbool true) ∧
    (∃ r1 r2,
      Settings.from_argparse (parseArgs []
        (("password", PyVal.vstr "hunter2") :: [("verbose", PyVal.vbool true)])) =
        Except.ok r1 ∧
      Settings.from_argparse (parseArgs []
        (("password", PyVal.vstr "swordfish") :: [("verbose", PyVal.vbool true)])) =
        Except.ok r2 ∧
      r1.printed = r2.printed ∧
      "password...........: <redacted>" ∈ r1.printed) :=
  ⟨by decide, by decide, by decide,
   (from_argparse_redacts_password [] [("verbose", PyVal.vbool true)]
     "hunter2" "swordfish" (by decide) (by decide) (by decide)).2.1⟩

/-- C3: constructing `Settings` with a positional argument beyond the
receiver fails with a `TypeError` before any field is assigned, and a purely
keyword construction never fails for this reason. -/
theorem settings_init_rejects_positional
    (posArgs : List PyVal) (kwargs : PyDict) (h : posArgs ≠ []) :
    Settings.init posArgs kwargs =
      Except.error (PyErr.typeError "Settings takes no positional arguments") ∧
    ∃ d, Settings.init [] kwargs = Except.ok d := by
  constructor
  · simp [Settings.init, noPositional, h]
  · exact ⟨_, rfl⟩

theorem settings_init_rejects_positional_witness :
    ([PyVal.vstr "myprofile"] : List PyVal) ≠ [] ∧
    (Settings.init [PyVal.vstr "myprofile"] [] =
      Except.error (PyErr.typeError "Settings takes no positional arguments") ∧
     ∃ d, Settings.init [] [] = Except.ok d) :=
  ⟨by decide,
   settings_init_rejects_positional [PyVal.vstr "myprofile"] [] (by decide)⟩

/-- C4: whenever `from_argparse` succeeds on a namespace whose
`non_interactive` entry holds `ni`, the mapping handed to the constructor
(the final namespace state) has `interactive` bound to exactly the logical
negation of `ni`, and the `non_interactive` key itself removed. -/
theorem from_argparse_inverts_interactive (args : PyDict) (ni : PyVal)
    (r : FAResult)
    (hni : args.lookup "non_interactive" = some ni)
    (hok : Settings.from_argparse args = Except.ok r) :
    r.ns.lookup "interactive" = some (PyVal.vbool (!ni.truthy)) ∧
    r.ns.lookup "non_interactive" = Option.none := by
  cases hvb : (dictSet (args.filter (fun p => !(p.1 == "non_interactive")))
      "interactive" (PyVal.vbool (!ni.truthy))).lookup "verbose" with
  | none =>
    exfalso
    simp only [Settings.from_argparse, dictPop, hni] at hok
    rw [hvb] at hok
    exact Except.noConfusion hok
  | some v =>
    obtain ⟨inst, hinit, heq⟩ := from_argparse_eq_ok args ni v hni hvb
    rw [heq] at hok
    injection hok with h
    subst h
    constructor
    · exact lookup_dictSet_self _ _ _
    · rw [lookup_dictSet_ne _ _ _ _ (by decide)]
      exact lookup_filter_self args "non_interactive"

theorem from_argparse_inverts_interactive_witness :
    (([("non_interactive", PyVal.vbool false), ("verbose", PyVal.vbool false)] :
        PyDict).lookup "non_interactive" = some (PyVal.vbool false)) ∧
    (Settings.from_argparse
        [("non_interactive", PyVal.vbool false), ("verbose", PyVal.vbool false)] =
      Except.ok
        ⟨[("profile", PyVal.vnone), ("username", PyVal.vnone), ("password", PyVal.vnone),
          ("okta_org", PyVal.vnone), ("okta_aws_app_url", PyVal.vnone),
          ("sts_duration", PyVal.vnone),
          ("config_file", PyVal.vstr "~/.pyokta_aws/config"), ("verbose", PyVal.vbool false)],
         [],
         [("verbose", PyVal.vbool false), ("interactive", PyVal.vbool true)]⟩) ∧
    (([("verbose", PyVal.vbool false), ("interactive", PyVal.vbool true)] : PyDict).lookup
        "interactive" = some (PyVal.vbool (!(PyVal.vbool false).truthy)) ∧
     ([("verbose", PyVal.vbool false), ("interactive", PyVal.vbool true)] : PyDict).lookup
        "non_interactive" = Option.none) :=
  ⟨rfl, rfl,
   from_argparse_inverts_interactive
     [("non_interactive", PyVal.vbool false), ("verbose", PyVal.vbool false)]
     (PyVal.vbool false)
     ⟨[("profile", PyVal.vnone), ("username", PyVal.vnone), ("password", PyVal.vnone),
       ("okta_org", PyVal.vnone), ("okta_aws_app_url", PyVal.vnone),
       ("sts_duration", PyVal.vnone),
       ("config_file", PyVal.vstr "~/.pyokta_aws/config"), ("verbose", PyVal.vbool false)],
      [],
      [("verbose", PyVal.vbool false), ("interactive", PyVal.vbool true)]⟩
     rfl rfl⟩

/-- C5: when neither a CLI value nor the bound environment variable is
supplied, `sts_duration` resolves to 3600 and `config_file` resolves to the
default path. -/
theorem defaults_when_unset
    (environ : List (String × String)) (cli : PyDict)
    (h1 : cli.lookup "sts_duration" = Option.none)
    (h2 : environ.lookup "OKTA_STS_DURATION" = Option.none)
    (h3 : cli.lookup "config_file" = Option.none)
    (h4 : environ.lookup "PYOKTA_AWS_CONFIG" = Option.none) :
    (parseArgs environ cli).lookup "sts_duration" = some (PyVal.vint 3600) ∧
    (parseArgs environ cli).lookup "config_file" =
      some (PyVal.vstr "~/.pyokta_aws/config") := by
  constructor
  · simp [parseArgs, Settings.register_argparse_arguments, List.lookup,
      resolveOption, h1, h2]
  · simp [parseArgs, Settings.register_argparse_arguments, List.lookup,
      resolveOption, h3, h4]

theorem defaults_when_unset_witness :
    (([] : PyDict).lookup "sts_duration" = Option.none) ∧
    (parseArgs [] []).lookup "sts_duration" = some (PyVal.vint 3600) ∧
    (parseArgs [] []).lookup "config_file" =
      some (PyVal.vstr "~/.pyokta_aws/config") :=
  ⟨by decide,
   defaults_when_unset [] [] (by decide) (by decide) (by decide) (by decide)⟩

/-- C6: invoking with only `--profile acme --verbose` and no environment
variables yields profile `acme`, the default config file, STS duration 3600,
`interactive = True` in the resolved mapping, and the redacted password dump
line; but the constructed `Settings` instance has no `interactive` attribute,
because `Settings.__init__` accepts the `interactive` keyword without ever
assigning it. -/
theorem example_run_drops_interactive :
    ∃ r, Settings.from_argparse (parseArgs [] exampleCli) = Except.ok r ∧
      r.inst.lookup "profile" = some (PyVal.vstr "acme") ∧
      r.inst.lookup "config_file" = some (PyVal.vstr "~/.pyokta_aws/config") ∧
      r.inst.lookup "sts_duration" = some (PyVal.vint 3600) ∧
      r.ns.lookup "interactive" = some (PyVal.vbool true) ∧
      r.inst.lookup "interactive" = Option.none ∧
      "password...........: <redacted>" ∈ r.printed := by
  refine ⟨_, rfl, ?_, ?_, ?_, ?_, ?_, ?_⟩ <;> decide

/-- C7: on every namespace produced by parsing the registered arguments,
`from_argparse` never raises: it always returns one `Settings` instance. -/
theorem from_argparse_total (environ : List (String × String)) (cli : PyDict) :
    ∃ r, Settings.from_argparse (parseArgs environ cli) = Except.ok r :=
  ⟨_, rfl⟩

/-- C8: constructing `Settings` with only keyword arguments always succeeds,
whatever keys are supplied; unknown keys are silently discarded: the instance
holds exactly the eight fields assigned in the source, in order. -/
theorem settings_init_ignores_unknown (kwargs : PyDict) :
    ∃ d, Settings.init [] kwargs = Except.ok d ∧
      d.map Prod.fst = ["profile", "username", "password", "okta_org",
        "okta_aws_app_url", "sts_duration", "config_file", "verbose"] :=
  ⟨_, rfl, rfl⟩

/-- C9: `from_argparse` works on the aliased namespace dictionary itself
(modelled as explicit state passing): after the call the namespace has lost
its `non_interactive` entry, gained an `interactive` entry, and no longer
equals the dictionary the parser produced. -/
theorem from_argparse_mutates_namespace (environ : List (String × String))
    (cli : PyDict) :
    ∃ r, Settings.from_argparse (parseArgs environ cli) = Except.ok r ∧
      r.ns.lookup "non_interactive" = Option.none ∧
      (∃ b, r.ns.lookup "interactive" = some (PyVal.vbool b)) ∧
      r.ns ≠ parseArgs environ cli := by
  have hni := parseArgs_lookup_non_interactive environ cli
  have hv : (dictSet ((parseArgs environ cli).filter (fun p => !(p.1 == "non_interactive")))
      "interactive" (PyVal.vbool (!(resolveOption environ cli
        ⟨"non_interactive", Option.none, PyVal.vbool false⟩).truthy))).lookup "verbose" =
      some (resolveOption environ cli ⟨"verbose", Option.none, PyVal.vbool false⟩) := by
    rw [lookup_dictSet_ne _ _ _ _ (by decide), lookup_filter_ne _ _ _ (by decide),
      parseArgs_lookup_verbose]
  obtain ⟨inst, hinit, heq⟩ := from_argparse_eq_ok _ _ _ hni hv
  refine ⟨_, heq, ?_, ?_, ?_⟩
  · dsimp only
    rw [lookup_dictSet_ne _ _ _ _ (by decide)]
    exact lookup_filter_self _ _
  · dsimp only
    exact ⟨_, lookup_dictSet_self _ _ _⟩
  · dsimp only
    intro hcontra
    have h2 := parseArgs_lookup_non_interactive environ cli
    rw [← hcontra] at h2
    rw [lookup_dictSet_ne _ _ _ _ (by decide), lookup_filter_self] at h2
    exact Option.noConfusion h2

/-- C10: the `--aws-role-to-assume` (short `-r`) option is registered with environment
fallback `OKTA_AWS_ROLE_TO_ASSUME`, yet on every successful run the
constructed `Settings` instance has no `aws_role_to_assume` attribute: the
parsed value is absorbed by the ignored keyword arguments and dropped. -/
theorem role_registered_but_dropped :
    (∃ o ∈ Settings.register_argparse_arguments,
        o.dest = "aws_role_to_assume" ∧ o.env = some "OKTA_AWS_ROLE_TO_ASSUME") ∧
    ∀ (environ : List (String × String)) (cli : PyDict) (r : FAResult),
      Settings.from_argparse (parseArgs environ cli) = Except.ok r →
      r.inst.lookup "aws_role_to_assume" = Option.none := by
  constructor
  · exact ⟨⟨"aws_role_to_assume", some "OKTA_AWS_ROLE_TO_ASSUME", PyVal.vnone⟩,
      by decide, rfl, rfl⟩
  · intro environ cli r hok
    have hni := parseArgs_lookup_non_interactive environ cli
    have hv : (dictSet ((parseArgs environ cli).filter (fun p => !(p.1 == "non_interactive")))
        "interactive" (PyVal.vbool (!(resolveOption environ cli
          ⟨"non_interactive", Option.none, PyVal.vbool false⟩).truthy))).lookup "verbose" =
        some (resolveOption environ cli ⟨"verbose", Option.none, PyVal.vbool false⟩) := by
      rw [lookup_dictSet_ne _ _ _ _ (by decide), lookup_filter_ne _ _ _ (by decide),
        parseArgs_lookup_verbose]
    obtain ⟨inst, hinit, heq⟩ := from_argparse_eq_ok _ _ _ hni hv
    rw [heq] at hok
    injection hok with h
    subst h
    simp only [Settings.init, noPositional, if_pos] at hinit
    injection hinit with h2
    rw [← h2]
    simp [lookup_cons]

theorem role_registered_but_dropped_witness :
    Settings.from_argparse (parseArgs [] []) = Except.ok
      ⟨[("profile", PyVal.vnone), ("username", PyVal.vnone), ("password", PyVal.vnone),
        ("okta_org", PyVal.vnone), ("okta_aws_app_url", PyVal.vnone),
        ("sts_duration", PyVal.vint 3600),
        ("config_file", PyVal.vstr "~/.pyokta_aws/config"), ("verbose", PyVal.vbool false)],
       [],
       [("profile", PyVal.vnone), ("okta_org", PyVal.vnone), ("okta_aws_app_url", PyVal.vnone),
        ("aws_role_to_assume", PyVal.vnone), ("username", PyVal.vnone),
        ("password", PyVal.vnone), ("sts_duration", PyVal.vint 3600),
        ("config_file", PyVal.vstr "~/.pyokta_aws/config"), ("verbose", PyVal.vbool false),
        ("interactive", PyVal.vbool true)]⟩ ∧
    ([("profile", PyVal.vnone), ("username", PyVal.vnone), ("password", PyVal.vnone),
      ("okta_org", PyVal.vnone), ("okta_aws_app_url", PyVal.vnone),
      ("sts_duration", PyVal.vint 3600),
      ("config_file", PyVal.vstr "~/.pyokta_aws/config"),
      ("verbose", PyVal.vbool false)] : PyDict).lookup "aws_role_to_assume" =
      Option.none :=
  ⟨rfl, role_registered_but_dropped.2 [] []
    ⟨[("profile", PyVal.vnone), ("username", PyVal.vnone), ("password", PyVal.vnone),
      ("okta_org", PyVal.vnone), ("okta_aws_app_url", PyVal.vnone),
      ("sts_duration", PyVal.vint 3600),
      ("config_file", PyVal.vstr "~/.pyokta_aws/config"), ("verbose", PyVal.vbool false)],
     [],
     [("profile", PyVal.vnone), ("okta_org", PyVal.vnone), ("okta_aws_app_url", PyVal.vnone),
      ("aws_role_to_assume", PyVal.vnone), ("username", PyVal.vnone),
      ("password", PyVal.vnone), ("sts_duration", PyVal.vint 3600),
      ("config_file", PyVal.vstr "~/.pyokta_aws/config"), ("verbose", PyVal.vbool false),
      ("interactive", PyVal.vbool true)]⟩
    rfl⟩
